import Mathlib

/-!
# Verification of the secsgem SECS-II stream/function catalog and wire codec

Shallow embedding of `src/secsgem/secs/functions.py`: the format-descriptor
schema trees, the per-message metadata classes `SecsSxxFyy`, and the catalog
table `secsStreamsFunctions`.  The data-item codec (`dataitems.py`) is not part
of the source tree; where a claim needs it, the relevant operation is modelled
from the specification and marked as such in its doc comment.
-/

namespace Secsgem

/-- Concrete variable kinds that may appear in a `SecsVarDynamic` whitelist in
`functions.py` (`SecsVarString`, `SecsVarU1`, ..., `SecsVarI8`). -/
inductive VarType where
  | string
  | u1
  | u2
  | u4
  | u8
  | i1
  | i2
  | i4
  | i8
deriving DecidableEq

/-- Schema tree for a format descriptor, mirroring the constructor calls used
in `functions.py`: `SecsVarList(OrderedDict((...)), n)`, `SecsVarArray(e)`,
`SecsVarString(n)` / `SecsVarString()`, `SecsVarBinary`, `SecsVarU1/U2/U4`,
`SecsVarI2/I4`, `SecsVarDynamic([...])`, and the named data-item classes
(`SVID()`, `ECID()`, ...) imported from `dataitems`, which are kept as opaque
named leaves since their definitions are outside `functions.py`.  A `list`
node stores its ordered `(fieldName, schema)` pairs together with the
explicitly declared field count passed as second constructor argument. -/
inductive Schema where
  | list (fields : List (String × Schema)) (fieldCount : Nat)
  | array (elem : Schema)
  | string (length : Option Nat)
  | binary (length : Option Nat)
  | u1 (length : Option Nat)
  | u2 (length : Option Nat)
  | u4 (length : Option Nat)
  | i2 (length : Option Nat)
  | i4 (length : Option Nat)
  | dynamic (whitelist : List VarType)
  | item (name : String)

/-- Protocol metadata of one `SecsSxxFyy` class in `functions.py`: the
class attributes `_stream`, `_function`, `_formatDescriptor`, `_toHost`,
`_toEquipment`, `_hasReply`, `_isReplyRequired`, `_isMultiBlock`. -/
structure MessageType where
  stream : Nat
  function : Nat
  formatDescriptor : Option Schema
  toHost : Bool
  toEquipment : Bool
  hasReply : Bool
  isReplyRequired : Bool
  isMultiBlock : Bool

/-- The whitelist `[SecsVarU1, SecsVarU2, SecsVarU4, SecsVarU8, SecsVarI1,
SecsVarI2, SecsVarI4, SecsVarI8]` used repeatedly in `functions.py`. -/
def anyInteger : List VarType :=
  [.u1, .u2, .u4, .u8, .i1, .i2, .i4, .i8]

/-- The whitelist `[SecsVarString, SecsVarU1, SecsVarU2, SecsVarU4,
SecsVarU8, SecsVarI1, SecsVarI2, SecsVarI4, SecsVarI8]`. -/
def stringOrInteger : List VarType :=
  [.string, .u1, .u2, .u4, .u8, .i1, .i2, .i4, .i8]

/-- The whitelist `[SecsVarString, SecsVarU1, SecsVarU2, SecsVarU4,
SecsVarU8]`. -/
def stringOrUnsigned : List VarType :=
  [.string, .u1, .u2, .u4, .u8]

/-- `SecsS00F00` (hsms communication). -/
def SecsS00F00 : MessageType :=
  { stream := 0, function := 0, formatDescriptor := none,
    toHost := true, toEquipment := true,
    hasReply := false, isReplyRequired := false, isMultiBlock := false }

/-- `SecsS01F00` (abort transaction stream 1). -/
def SecsS01F00 : MessageType :=
  { stream := 1, function := 0, formatDescriptor := none,
    toHost := true, toEquipment := true,
    hasReply := false, isReplyRequired := false, isMultiBlock := false }

/-- `SecsS01F01` (are you online - request). -/
def SecsS01F01 : MessageType :=
  { stream := 1, function := 1, formatDescriptor := none,
    toHost := true, toEquipment := true,
    hasReply := true, isReplyRequired := true, isMultiBlock := false }

/-- `SecsS01F02` (on line data). -/
def SecsS01F02 : MessageType :=
  { stream := 1, function := 2,
    formatDescriptor := some (.array (.string (some 20))),
    toHost := true, toEquipment := true,
    hasReply := false, isReplyRequired := false, isMultiBlock := false }

/-- `SecsS01F03` (selected equipment status - request). -/
def SecsS01F03 : MessageType :=
  { stream := 1, function := 3,
    formatDescriptor := some (.array (.item "SVID")),
    toHost := false, toEquipment := true,
    hasReply := true, isReplyRequired := true, isMultiBlock := false }

/-- `SecsS01F04` (selected equipment status - data). -/
def SecsS01F04 : MessageType :=
  { stream := 1, function := 4,
    formatDescriptor := some (.array (.item "SV")),
    toHost := true, toEquipment := false,
    hasReply := false, isReplyRequired := false, isMultiBlock := true }

/-- `SecsS01F11` (status variable namelist - request). -/
def SecsS01F11 : MessageType :=
  { stream := 1, function := 11,
    formatDescriptor := some (.array (.item "SVID")),
    toHost := false, toEquipment := true,
    hasReply := true, isReplyRequired := true, isMultiBlock := false }

/-- `SecsS01F12` (status variable namelist - reply). -/
def SecsS01F12 : MessageType :=
  { stream := 1, function := 12,
    formatDescriptor := some (.array (.list
      [("SVID", .item "SVID"), ("SVNAME", .item "SVNAME"),
       ("UNITS", .item "UNITS")] 3)),
    toHost := true, toEquipment := false,
    hasReply := false, isReplyRequired := false, isMultiBlock := true }

/-- `SecsS01F13` (establish communication - request). -/
def SecsS01F13 : MessageType :=
  { stream := 1, function := 13,
    formatDescriptor := some (.array (.string (some 20))),
    toHost := true, toEquipment := true,
    hasReply := true, isReplyRequired := true, isMultiBlock := false }

/-- `SecsS01F14` (establish communication - acknowledge). -/
def SecsS01F14 : MessageType :=
  { stream := 1, function := 14,
    formatDescriptor := some (.list
      [("COMMACK", .item "COMMACK"),
       ("DATA", .array (.string (some 20)))] 2),
    toHost := true, toEquipment := true,
    hasReply := false, isReplyRequired := false, isMultiBlock := false }

/-- `SecsS01F15` (request offline). -/
def SecsS01F15 : MessageType :=
  { stream := 1, function := 15, formatDescriptor := none,
    toHost := false, toEquipment := true,
    hasReply := true, isReplyRequired := true, isMultiBlock := false }

/-- `SecsS01F16` (offline acknowledge). -/
def SecsS01F16 : MessageType :=
  { stream := 1, function := 16,
    formatDescriptor := some (.item "OFLACK"),
    toHost := true, toEquipment := false,
    hasReply := false, isReplyRequired := false, isMultiBlock := false }

/-- `SecsS01F17` (request online). -/
def SecsS01F17 : MessageType :=
  { stream := 1, function := 17, formatDescriptor := none,
    toHost := false, toEquipment := true,
    hasReply := true, isReplyRequired := true, isMultiBlock := false }

/-- `SecsS01F18` (online acknowledge). -/
def SecsS01F18 : MessageType :=
  { stream := 1, function := 18,
    formatDescriptor := some (.item "ONLACK"),
    toHost := true, toEquipment := false,
    hasReply := false, isReplyRequired := false, isMultiBlock := false }

/-- `SecsS02F00` (abort transaction stream 2). -/
def SecsS02F00 : MessageType :=
  { stream := 2, function := 0, formatDescriptor := none,
    toHost := true, toEquipment := true,
    hasReply := false, isReplyRequired := false, isMultiBlock := false }

/-- `SecsS02F13` (equipment constant - request). -/
def SecsS02F13 : MessageType :=
  { stream := 2, function := 13,
    formatDescriptor := some (.array (.item "ECID")),
    toHost := false, toEquipment := true,
    hasReply := true, isReplyRequired := true, isMultiBlock := false }

/-- `SecsS02F14` (equipment constant - data). -/
def SecsS02F14 : MessageType :=
  { stream := 2, function := 14,
    formatDescriptor := some (.array (.item "ECV")),
    toHost := true, toEquipment := false,
    hasReply := false, isReplyRequired := false, isMultiBlock := true }

/-- `SecsS02F15` (new equipment constant - send). -/
def SecsS02F15 : MessageType :=
  { stream := 2, function := 15,
    formatDescriptor := some (.array (.list
      [("ECID", .item "ECID"), ("ECV", .item "ECV")] 2)),
    toHost := false, toEquipment := true,
    hasReply := true, isReplyRequired := true, isMultiBlock := false }

/-- `SecsS02F16` (new equipment constant - acknowledge). -/
def SecsS02F16 : MessageType :=
  { stream := 2, function := 16,
    formatDescriptor := some (.item "EAC"),
    toHost := true, toEquipment := false,
    hasReply := false, isReplyRequired := false, isMultiBlock := false }

/-- `SecsS02F17` (date and time - request). -/
def SecsS02F17 : MessageType :=
  { stream := 2, function := 17, formatDescriptor := none,
    toHost := true, toEquipment := true,
    hasReply := true, isReplyRequired := true, isMultiBlock := false }

/-- `SecsS02F18` (date and time - data). -/
def SecsS02F18 : MessageType :=
  { stream := 2, function := 18,
    formatDescriptor := some (.item "TIME"),
    toHost := true, toEquipment := true,
    hasReply := false, isReplyRequired := false, isMultiBlock := false }

/-- `SecsS02F29` (equipment constant namelist - request). -/
def SecsS02F29 : MessageType :=
  { stream := 2, function := 29,
    formatDescriptor := some (.array (.item "ECID")),
    toHost := false, toEquipment := true,
    hasReply := true, isReplyRequired := true, isMultiBlock := false }

/-- `SecsS02F30` (equipment constant namelist). -/
def SecsS02F30 : MessageType :=
  { stream := 2, function := 30,
    formatDescriptor := some (.array (.list
      [("ECID", .item "ECID"), ("ECNAME", .item "ECNAME"),
       ("ECMIN", .item "ECMIN"), ("ECMAX", .item "ECMAX"),
       ("ECDEF", .item "ECDEF"), ("UNITS", .item "UNITS")] 6)),
    toHost := true, toEquipment := false,
    hasReply := false, isReplyRequired := false, isMultiBlock := true }

/-- `SecsS02F33` (define report). -/
def SecsS02F33 : MessageType :=
  { stream := 2, function := 33,
    formatDescriptor := some (.list
      [("DATAID", .item "DATAID"),
       ("DATA", .array (.list
         [("RPTID", .item "RPTID"),
          ("VID", .array (.item "VID"))] 2))] 2),
    toHost := false, toEquipment := true,
    hasReply := true, isReplyRequired := true, isMultiBlock := true }

/-- `SecsS02F34` (define report - acknowledge). -/
def SecsS02F34 : MessageType :=
  { stream := 2, function := 34,
    formatDescriptor := some (.item "DRACK"),
    toHost := true, toEquipment := false,
    hasReply := false, isReplyRequired := false, isMultiBlock := false }

/-- `SecsS02F35` (link event report). -/
def SecsS02F35 : MessageType :=
  { stream := 2, function := 35,
    formatDescriptor := some (.list
      [("DATAID", .item "DATAID"),
       ("DATA", .array (.list
         [("CEID", .item "CEID"),
          ("RPTID", .array (.item "RPTID"))] 2))] 2),
    toHost := false, toEquipment := true,
    hasReply := true, isReplyRequired := true, isMultiBlock := true }

/-- `SecsS02F36` (link event report - acknowledge). -/
def SecsS02F36 : MessageType :=
  { stream := 2, function := 36,
    formatDescriptor := some (.item "LRACK"),
    toHost := false, toEquipment := true,
    hasReply := false, isReplyRequired := false, isMultiBlock := false }

/-- `SecsS02F37` (enable or disable event report). -/
def SecsS02F37 : MessageType :=
  { stream := 2, function := 37,
    formatDescriptor := some (.list
      [("CEED", .item "CEED"),
       ("CEID", .array (.item "CEID"))] 2),
    toHost := false, toEquipment := true,
    hasReply := true, isReplyRequired := true, isMultiBlock := false }

/-- `SecsS02F38` (enable or disable event report - acknowledge). -/
def SecsS02F38 : MessageType :=
  { stream := 2, function := 38,
    formatDescriptor := some (.item "ERACK"),
    toHost := true, toEquipment := false,
    hasReply := false, isReplyRequired := false, isMultiBlock := false }

/-- `SecsS02F41` (host command - send). -/
def SecsS02F41 : MessageType :=
  { stream := 2, function := 41,
    formatDescriptor := some (.list
      [("RCMD", .item "RCMD"),
       ("PARAMS", .array (.list
         [("CPNAME", .item "CPNAME"),
          ("CPVAL", .item "CPVAL")] 2))] 2),
    toHost := false, toEquipment := true,
    hasReply := true, isReplyRequired := true, isMultiBlock := false }

/-- `SecsS02F42` (host command - acknowledge). -/
def SecsS02F42 : MessageType :=
  { stream := 2, function := 42,
    formatDescriptor := some (.list
      [("HCACK", .item "HCACK"),
       ("PARAMS", .array (.list
         [("CPNAME", .item "CPNAME"),
          ("CPACK", .item "CPACK")] 2))] 2),
    toHost := true, toEquipment := false,
    hasReply := false, isReplyRequired := false, isMultiBlock := false }

/-- `SecsS05F00` (abort transaction stream 5). -/
def SecsS05F00 : MessageType :=
  { stream := 5, function := 0, formatDescriptor := none,
    toHost := true, toEquipment := true,
    hasReply := false, isReplyRequired := false, isMultiBlock := false }

/-- `SecsS05F01` (alarm report - send). -/
def SecsS05F01 : MessageType :=
  { stream := 5, function := 1,
    formatDescriptor := some (.list
      [("ALCD", .item "ALCD"), ("ALID", .item "ALID"),
       ("ALTX", .item "ALTX")] 3),
    toHost := true, toEquipment := false,
    hasReply := true, isReplyRequired := false, isMultiBlock := false }

/-- `SecsS05F02` (alarm report - acknowledge). -/
def SecsS05F02 : MessageType :=
  { stream := 5, function := 2,
    formatDescriptor := some (.item "ACKC5"),
    toHost := false, toEquipment := true,
    hasReply := false, isReplyRequired := false, isMultiBlock := false }

/-- `SecsS06F00` (abort transaction stream 6). -/
def SecsS06F00 : MessageType :=
  { stream := 6, function := 0, formatDescriptor := none,
    toHost := true, toEquipment := true,
    hasReply := false, isReplyRequired := false, isMultiBlock := false }

/-- `SecsS06F05` (multi block data inquiry). -/
def SecsS06F05 : MessageType :=
  { stream := 6, function := 5,
    formatDescriptor := some (.list
      [("DATAID", .item "DATAID"),
       ("DATALENGTH", .dynamic anyInteger)] 2),
    toHost := true, toEquipment := false,
    hasReply := true, isReplyRequired := true, isMultiBlock := false }

/-- `SecsS06F06` (multi block data grant). -/
def SecsS06F06 : MessageType :=
  { stream := 6, function := 6,
    formatDescriptor := some (.binary (some 1)),
    toHost := false, toEquipment := true,
    hasReply := false, isReplyRequired := false, isMultiBlock := false }

/-- `SecsS06F07` (data transfer request). -/
def SecsS06F07 : MessageType :=
  { stream := 6, function := 7,
    formatDescriptor := some (.u4 (some 1)),
    toHost := false, toEquipment := true,
    hasReply := true, isReplyRequired := true, isMultiBlock := false }

/-- `SecsS06F08` (data transfer data). -/
def SecsS06F08 : MessageType :=
  { stream := 6, function := 8,
    formatDescriptor := some (.list
      [("DATAID", .item "DATAID"),
       ("CEID", .item "CEID"),
       ("DS", .array (.list
         [("DSID", .dynamic stringOrInteger),
          ("DV", .array (.list
            [("DVNAME", .dynamic stringOrInteger),
             ("DVVAL", .dynamic stringOrInteger)] 2))] 2))] 3),
    toHost := true, toEquipment := false,
    hasReply := false, isReplyRequired := false, isMultiBlock := true }

/-- `SecsS06F11` (event report). -/
def SecsS06F11 : MessageType :=
  { stream := 6, function := 11,
    formatDescriptor := some (.list
      [("DATAID", .item "DATAID"),
       ("CEID", .item "CEID"),
       ("RPT", .array (.list
         [("RPTID", .item "RPTID"),
          ("V", .array (.dynamic []))] 2))] 3),
    toHost := true, toEquipment := false,
    hasReply := true, isReplyRequired := true, isMultiBlock := true }

/-- `SecsS06F12` (event report - acknowledge). -/
def SecsS06F12 : MessageType :=
  { stream := 6, function := 12,
    formatDescriptor := some (.binary (some 1)),
    toHost := false, toEquipment := true,
    hasReply := false, isReplyRequired := false, isMultiBlock := false }

/-- `SecsS06F15` (event report request). -/
def SecsS06F15 : MessageType :=
  { stream := 6, function := 15,
    formatDescriptor := some (.item "CEID"),
    toHost := false, toEquipment := true,
    hasReply := true, isReplyRequired := true, isMultiBlock := false }

/-- `SecsS06F16` (event report data). -/
def SecsS06F16 : MessageType :=
  { stream := 6, function := 16,
    formatDescriptor := some (.list
      [("DATAID", .item "DATAID"),
       ("CEID", .item "CEID"),
       ("RPT", .array (.list
         [("RPTID", .item "RPTID"),
          ("V", .array (.dynamic []))] 2))] 3),
    toHost := true, toEquipment := false,
    hasReply := false, isReplyRequired := false, isMultiBlock := true }

/-- `SecsS06F19` (individual report request). -/
def SecsS06F19 : MessageType :=
  { stream := 6, function := 19,
    formatDescriptor := some (.item "RPTID"),
    toHost := false, toEquipment := true,
    hasReply := true, isReplyRequired := true, isMultiBlock := false }

/-- `SecsS06F20` (individual report data). -/
def SecsS06F20 : MessageType :=
  { stream := 6, function := 20,
    formatDescriptor := some (.array (.dynamic [])),
    toHost := true, toEquipment := false,
    hasReply := false, isReplyRequired := false, isMultiBlock := true }

/-- `SecsS06F21` (annotated individual report request). -/
def SecsS06F21 : MessageType :=
  { stream := 6, function := 21,
    formatDescriptor := some (.item "RPTID"),
    toHost := false, toEquipment := true,
    hasReply := true, isReplyRequired := true, isMultiBlock := false }

/-- `SecsS06F22` (annotated individual report data). -/
def SecsS06F22 : MessageType :=
  { stream := 6, function := 22,
    formatDescriptor := some (.array (.list
      [("VID", .item "VID"), ("V", .dynamic [])] 2)),
    toHost := true, toEquipment := false,
    hasReply := false, isReplyRequired := false, isMultiBlock := true }

/-- `SecsS07F01` (process program load - inquire). -/
def SecsS07F01 : MessageType :=
  { stream := 7, function := 1,
    formatDescriptor := some (.list
      [("PPID", .string none), ("LENGTH", .u4 (some 1))] 2),
    toHost := true, toEquipment := true,
    hasReply := true, isReplyRequired := true, isMultiBlock := false }

/-- `SecsS07F02` (process program load - grant). -/
def SecsS07F02 : MessageType :=
  { stream := 7, function := 2,
    formatDescriptor := some (.binary (some 1)),
    toHost := true, toEquipment := true,
    hasReply := false, isReplyRequired := false, isMultiBlock := false }

/-- `SecsS07F03` (process program - send). -/
def SecsS07F03 : MessageType :=
  { stream := 7, function := 3,
    formatDescriptor := some (.list
      [("PPID", .string none), ("PPBODY", .binary none)] 2),
    toHost := true, toEquipment := true,
    hasReply := true, isReplyRequired := true, isMultiBlock := true }

/-- `SecsS07F04` (process program - acknowledge). -/
def SecsS07F04 : MessageType :=
  { stream := 7, function := 4,
    formatDescriptor := some (.binary (some 1)),
    toHost := true, toEquipment := true,
    hasReply := false, isReplyRequired := false, isMultiBlock := false }

/-- `SecsS07F05` (process program - request). -/
def SecsS07F05 : MessageType :=
  { stream := 7, function := 5,
    formatDescriptor := some (.string none),
    toHost := true, toEquipment := true,
    hasReply := true, isReplyRequired := true, isMultiBlock := false }

/-- `SecsS07F06` (process program - data). -/
def SecsS07F06 : MessageType :=
  { stream := 7, function := 6,
    formatDescriptor := some (.list
      [("PPID", .string none), ("PPBODY", .binary none)] 2),
    toHost := true, toEquipment := true,
    hasReply := false, isReplyRequired := false, isMultiBlock := true }

/-- `SecsS07F17` (delete process program - send). -/
def SecsS07F17 : MessageType :=
  { stream := 7, function := 17,
    formatDescriptor := some (.array (.string none)),
    toHost := false, toEquipment := true,
    hasReply := true, isReplyRequired := true, isMultiBlock := false }

/-- `SecsS07F18` (delete process program - acknowledge). -/
def SecsS07F18 : MessageType :=
  { stream := 7, function := 18,
    formatDescriptor := some (.binary (some 1)),
    toHost := true, toEquipment := false,
    hasReply := false, isReplyRequired := false, isMultiBlock := false }

/-- `SecsS07F19` (current equipment process program - request). -/
def SecsS07F19 : MessageType :=
  { stream := 7, function := 19, formatDescriptor := none,
    toHost := false, toEquipment := true,
    hasReply := true, isReplyRequired := true, isMultiBlock := false }

/-- `SecsS07F20` (current equipment process program - data). -/
def SecsS07F20 : MessageType :=
  { stream := 7, function := 20,
    formatDescriptor := some (.array (.string none)),
    toHost := true, toEquipment := false,
    hasReply := false, isReplyRequired := false, isMultiBlock := true }

/-- `SecsS09F00` (abort transaction stream 9). -/
def SecsS09F00 : MessageType :=
  { stream := 9, function := 0, formatDescriptor := none,
    toHost := true, toEquipment := true,
    hasReply := false, isReplyRequired := false, isMultiBlock := false }

/-- `SecsS09F01` (unrecognized device id). -/
def SecsS09F01 : MessageType :=
  { stream := 9, function := 1,
    formatDescriptor := some (.binary (some 10)),
    toHost := true, toEquipment := false,
    hasReply := false, isReplyRequired := false, isMultiBlock := false }

/-- `SecsS09F03` (unrecognized stream type). -/
def SecsS09F03 : MessageType :=
  { stream := 9, function := 3,
    formatDescriptor := some (.binary (some 10)),
    toHost := true, toEquipment := false,
    hasReply := false, isReplyRequired := false, isMultiBlock := false }

/-- `SecsS09F05` (unrecognized function type). -/
def SecsS09F05 : MessageType :=
  { stream := 9, function := 5,
    formatDescriptor := some (.binary (some 10)),
    toHost := true, toEquipment := false,
    hasReply := false, isReplyRequired := false, isMultiBlock := false }

/-- `SecsS09F07` (illegal data). -/
def SecsS09F07 : MessageType :=
  { stream := 9, function := 7,
    formatDescriptor := some (.binary (some 10)),
    toHost := true, toEquipment := false,
    hasReply := false, isReplyRequired := false, isMultiBlock := false }

/-- `SecsS09F09` (transaction timer timeout). -/
def SecsS09F09 : MessageType :=
  { stream := 9, function := 9,
    formatDescriptor := some (.binary (some 10)),
    toHost := true, toEquipment := false,
    hasReply := false, isReplyRequired := false, isMultiBlock := false }

/-- `SecsS09F11` (data too long). -/
def SecsS09F11 : MessageType :=
  { stream := 9, function := 11,
    formatDescriptor := some (.binary (some 10)),
    toHost := true, toEquipment := false,
    hasReply := false, isReplyRequired := false, isMultiBlock := false }

/-- `SecsS09F13` (conversation timeout). -/
def SecsS09F13 : MessageType :=
  { stream := 9, function := 13,
    formatDescriptor := some (.list
      [("MEXP", .string (some 6)), ("EDID", .string (some 80))] 2),
    toHost := true, toEquipment := false,
    hasReply := false, isReplyRequired := false, isMultiBlock := false }

/-- `SecsS10F00` (abort transaction stream 10). -/
def SecsS10F00 : MessageType :=
  { stream := 10, function := 0, formatDescriptor := none,
    toHost := true, toEquipment := true,
    hasReply := false, isReplyRequired := false, isMultiBlock := false }

/-- `SecsS10F01` (terminal - request). -/
def SecsS10F01 : MessageType :=
  { stream := 10, function := 1,
    formatDescriptor := some (.list
      [("TID", .binary (some 1)), ("TEXT", .string none)] 2),
    toHost := true, toEquipment := false,
    hasReply := true, isReplyRequired := false, isMultiBlock := false }

/-- `SecsS10F02` (terminal - acknowledge). -/
def SecsS10F02 : MessageType :=
  { stream := 10, function := 2,
    formatDescriptor := some (.binary (some 1)),
    toHost := false, toEquipment := true,
    hasReply := false, isReplyRequired := false, isMultiBlock := false }

/-- `SecsS10F03` (terminal single - display). -/
def SecsS10F03 : MessageType :=
  { stream := 10, function := 3,
    formatDescriptor := some (.list
      [("TID", .binary (some 1)), ("TEXT", .string none)] 2),
    toHost := false, toEquipment := true,
    hasReply := true, isReplyRequired := false, isMultiBlock := false }

/-- `SecsS10F04` (terminal single - acknowledge). -/
def SecsS10F04 : MessageType :=
  { stream := 10, function := 4,
    formatDescriptor := some (.binary (some 1)),
    toHost := true, toEquipment := false,
    hasReply := false, isReplyRequired := false, isMultiBlock := false }

/-- `SecsS12F00` (abort transaction stream 12). -/
def SecsS12F00 : MessageType :=
  { stream := 12, function := 0, formatDescriptor := none,
    toHost := true, toEquipment := true,
    hasReply := false, isReplyRequired := false, isMultiBlock := false }

/-- `SecsS12F01` (map setup data - send). -/
def SecsS12F01 : MessageType :=
  { stream := 12, function := 1,
    formatDescriptor := some (.list
      [("MID", .string (some 16)), ("IDTYP", .binary (some 1)),
       ("FNLOC", .u2 (some 1)), ("FFROT", .u2 (some 1)),
       ("ORLOC", .binary (some 1)), ("RPSEL", .u1 (some 1)),
       ("REF", .array (.i4 (some 2))), ("DUTMS", .string none),
       ("XDIES", .u4 (some 1)), ("YDIES", .u4 (some 1)),
       ("ROWCT", .u4 (some 1)), ("COLCT", .u4 (some 1)),
       ("NULBC", .dynamic [.string, .u1]), ("PRDCT", .u4 (some 1)),
       ("PRAXI", .binary (some 1))] 15),
    toHost := true, toEquipment := false,
    hasReply := true, isReplyRequired := true, isMultiBlock := false }

/-- `SecsS12F02` (map setup data - acknowledge). -/
def SecsS12F02 : MessageType :=
  { stream := 12, function := 2,
    formatDescriptor := some (.binary (some 1)),
    toHost := false, toEquipment := true,
    hasReply := false, isReplyRequired := false, isMultiBlock := false }

/-- `SecsS12F03` (map setup data - request). -/
def SecsS12F03 : MessageType :=
  { stream := 12, function := 3,
    formatDescriptor := some (.list
      [("MID", .string (some 16)), ("IDTYP", .binary (some 1)),
       ("MAPFT", .binary (some 1)), ("FNLOC", .u2 (some 1)),
       ("FFROT", .u2 (some 1)), ("ORLOC", .binary (some 1)),
       ("PRAXI", .binary (some 1)), ("BCEQU", .u1 none),
       ("NULBC", .dynamic [.string, .u1])] 9),
    toHost := true, toEquipment := false,
    hasReply := true, isReplyRequired := true, isMultiBlock := false }

/-- `SecsS12F04` (map setup data). -/
def SecsS12F04 : MessageType :=
  { stream := 12, function := 4,
    formatDescriptor := some (.list
      [("MID", .string (some 16)), ("IDTYP", .binary (some 1)),
       ("FNLOC", .u2 (some 1)), ("ORLOC", .binary (some 1)),
       ("RPSEL", .u1 (some 1)), ("REF", .array (.i4 (some 2))),
       ("DUTMS", .string none), ("XDIES", .u4 (some 1)),
       ("YDIES", .u4 (some 1)), ("ROWCT", .u4 (some 1)),
       ("COLCT", .u4 (some 1)), ("PRDCT", .u4 (some 1)),
       ("BCEQU", .u1 none), ("NULBC", .dynamic [.string, .u1]),
       ("MLCL", .u4 (some 1))] 15),
    toHost := false, toEquipment := true,
    hasReply := false, isReplyRequired := false, isMultiBlock := false }

/-- `SecsS12F05` (map transmit inquire). -/
def SecsS12F05 : MessageType :=
  { stream := 12, function := 5,
    formatDescriptor := some (.list
      [("MID", .string (some 16)), ("IDTYP", .binary (some 1)),
       ("MAPFT", .binary (some 1)), ("MLCL", .u4 (some 1))] 4),
    toHost := true, toEquipment := false,
    hasReply := true, isReplyRequired := true, isMultiBlock := false }

/-- `SecsS12F06` (map transmit - grant). -/
def SecsS12F06 : MessageType :=
  { stream := 12, function := 6,
    formatDescriptor := some (.binary (some 1)),
    toHost := false, toEquipment := true,
    hasReply := false, isReplyRequired := false, isMultiBlock := false }

/-- `SecsS12F07` (map data type 1 - send). -/
def SecsS12F07 : MessageType :=
  { stream := 12, function := 7,
    formatDescriptor := some (.list
      [("MID", .string (some 16)), ("IDTYP", .binary (some 1)),
       ("DATA", .array (.list
         [("RSINF", .i4 (some 3)), ("BINLT", .u1 none)] 2))] 3),
    toHost := true, toEquipment := false,
    hasReply := true, isReplyRequired := true, isMultiBlock := true }

/-- `SecsS12F08` (map data type 1 - acknowledge). -/
def SecsS12F08 : MessageType :=
  { stream := 12, function := 8,
    formatDescriptor := some (.binary (some 1)),
    toHost := false, toEquipment := true,
    hasReply := false, isReplyRequired := false, isMultiBlock := false }

/-- `SecsS12F09` (map data type 2 - send). -/
def SecsS12F09 : MessageType :=
  { stream := 12, function := 9,
    formatDescriptor := some (.list
      [("MID", .string (some 16)), ("IDTYP", .binary (some 1)),
       ("STRP", .i2 (some 2)), ("BINLT", .u1 none)] 4),
    toHost := true, toEquipment := false,
    hasReply := true, isReplyRequired := true, isMultiBlock := true }

/-- `SecsS12F10` (map data type 2 - acknowledge). -/
def SecsS12F10 : MessageType :=
  { stream := 12, function := 10,
    formatDescriptor := some (.binary (some 1)),
    toHost := false, toEquipment := true,
    hasReply := false, isReplyRequired := false, isMultiBlock := false }

/-- `SecsS12F11` (map data type 3 - send). -/
def SecsS12F11 : MessageType :=
  { stream := 12, function := 11,
    formatDescriptor := some (.list
      [("MID", .string (some 16)), ("IDTYP", .binary (some 1)),
       ("DATA", .array (.list
         [("XYPOS", .i2 (some 2)), ("BINLT", .u1 none)] 2))] 3),
    toHost := true, toEquipment := false,
    hasReply := true, isReplyRequired := true, isMultiBlock := true }

/-- `SecsS12F12` (map data type 3 - acknowledge). -/
def SecsS12F12 : MessageType :=
  { stream := 12, function := 12,
    formatDescriptor := some (.binary (some 1)),
    toHost := false, toEquipment := true,
    hasReply := false, isReplyRequired := false, isMultiBlock := false }

/-- `SecsS12F13` (map data type 1 - request). -/
def SecsS12F13 : MessageType :=
  { stream := 12, function := 13,
    formatDescriptor := some (.list
      [("MID", .string (some 16)), ("IDTYP", .binary (some 1))] 2),
    toHost := true, toEquipment := false,
    hasReply := true, isReplyRequired := true, isMultiBlock := false }

/-- `SecsS12F14` (map data type 1). -/
def SecsS12F14 : MessageType :=
  { stream := 12, function := 14,
    formatDescriptor := some (.list
      [("MID", .string (some 16)), ("IDTYP", .binary (some 1)),
       ("DATA", .array (.list
         [("RSINF", .i4 (some 3)), ("BINLT", .u1 none)] 2))] 3),
    toHost := false, toEquipment := true,
    hasReply := false, isReplyRequired := false, isMultiBlock := true }

/-- `SecsS12F15` (map data type 2 - request). -/
def SecsS12F15 : MessageType :=
  { stream := 12, function := 15,
    formatDescriptor := some (.list
      [("MID", .string (some 16)), ("IDTYP", .binary (some 1))] 2),
    toHost := true, toEquipment := false,
    hasReply := true, isReplyRequired := true, isMultiBlock := false }

/-- `SecsS12F16` (map data type 2). -/
def SecsS12F16 : MessageType :=
  { stream := 12, function := 16,
    formatDescriptor := some (.list
      [("MID", .string (some 16)), ("IDTYP", .binary (some 1)),
       ("STRP", .i2 (some 2)), ("BINLT", .u1 none)] 4),
    toHost := false, toEquipment := true,
    hasReply := false, isReplyRequired := false, isMultiBlock := true }

/-- `SecsS12F17` (map data type 3 - request). -/
def SecsS12F17 : MessageType :=
  { stream := 12, function := 17,
    formatDescriptor := some (.list
      [("MID", .string (some 16)), ("IDTYP", .binary (some 1)),
       ("SDBIN", .binary (some 1))] 3),
    toHost := true, toEquipment := false,
    hasReply := true, isReplyRequired := true, isMultiBlock := false }

/-- `SecsS12F18` (map data type 3). -/
def SecsS12F18 : MessageType :=
  { stream := 12, function := 18,
    formatDescriptor := some (.list
      [("MID", .string (some 16)), ("IDTYP", .binary (some 1)),
       ("DATA", .array (.list
         [("XYPOS", .i2 (some 2)), ("BINLT", .u1 none)] 2))] 3),
    toHost := false, toEquipment := true,
    hasReply := false, isReplyRequired := false, isMultiBlock := true }

/-- `SecsS12F19` (map error report - send). -/
def SecsS12F19 : MessageType :=
  { stream := 12, function := 19,
    formatDescriptor := some (.list
      [("MAPER", .binary (some 1)), ("DATLC", .u1 (some 1))] 2),
    toHost := true, toEquipment := true,
    hasReply := false, isReplyRequired := false, isMultiBlock := false }

/-- The whitelist `[SecsVarU1, SecsVarU2, SecsVarU4, SecsVarU8]`. -/
def anyUnsigned : List VarType :=
  [.u1, .u2, .u4, .u8]

/-- `SecsS14F00` (abort transaction stream 14). -/
def SecsS14F00 : MessageType :=
  { stream := 14, function := 0, formatDescriptor := none,
    toHost := true, toEquipment := true,
    hasReply := false, isReplyRequired := false, isMultiBlock := false }

/-- `SecsS14F01` (get attribute - request). -/
def SecsS14F01 : MessageType :=
  { stream := 14, function := 1,
    formatDescriptor := some (.list
      [("OBJSPEC", .string none),
       ("OBJTYPE", .dynamic stringOrUnsigned),
       ("OBJID", .array (.dynamic stringOrUnsigned)),
       ("FILTER", .array (.list
         [("ATTRID", .dynamic stringOrUnsigned),
          ("ATTRDATA", .dynamic []),
          ("ATTRRELN", .u1 (some 1))] 3)),
       ("ATTRID", .array (.dynamic stringOrUnsigned))] 5),
    toHost := true, toEquipment := true,
    hasReply := true, isReplyRequired := true, isMultiBlock := false }

/-- `SecsS14F02` (get attribute - data). -/
def SecsS14F02 : MessageType :=
  { stream := 14, function := 2,
    formatDescriptor := some (.list
      [("DATA", .array (.list
         [("OBJID", .dynamic stringOrUnsigned),
          ("ATTRIBS", .array (.list
            [("ATTRID", .dynamic stringOrUnsigned),
             ("ATTRDATA", .dynamic [])] 2))] 2)),
       ("ERRORS", .list
         [("OBJACK", .u1 (some 1)),
          ("ERROR", .array (.list
            [("ERRCODE", .dynamic anyUnsigned),
             ("ERRTEXT", .string none)] 2))] 2)] 2),
    toHost := true, toEquipment := true,
    hasReply := false, isReplyRequired := false, isMultiBlock := true }

/-- `SecsS14F03` (set attribute). -/
def SecsS14F03 : MessageType :=
  { stream := 14, function := 3,
    formatDescriptor := some (.list
      [("OBJSPEC", .string none),
       ("OBJTYPE", .dynamic stringOrUnsigned),
       ("OBJID", .array (.dynamic stringOrUnsigned)),
       ("ATTRIBS", .array (.list
         [("ATTRID", .dynamic stringOrUnsigned),
          ("ATTRDATA", .dynamic [])] 2))] 4),
    toHost := true, toEquipment := true,
    hasReply := true, isReplyRequired := true, isMultiBlock := false }

/-- `SecsS14F04` (set attribute - data). -/
def SecsS14F04 : MessageType :=
  { stream := 14, function := 4,
    formatDescriptor := some (.list
      [("DATA", .array (.list
         [("OBJID", .dynamic stringOrUnsigned),
          ("ATTRIBS", .array (.list
            [("ATTRID", .dynamic stringOrUnsigned),
             ("ATTRDATA", .dynamic [])] 2))] 2)),
       ("ERRORS", .list
         [("OBJACK", .u1 (some 1)),
          ("ERROR", .array (.list
            [("ERRCODE", .dynamic anyUnsigned),
             ("ERRTEXT", .string none)] 2))] 2)] 2),
    toHost := true, toEquipment := true,
    hasReply := false, isReplyRequired := false, isMultiBlock := true }

/-- The catalog table `secsStreamsFunctions` of `functions.py`
(lines 4358–4474): stream number to (function number to message type),
with the nesting and entry order of the source dict preserved. -/
def secsStreamsFunctions : List (Nat × List (Nat × MessageType)) :=
  [ (0, [(0, SecsS00F00)]),
    (1, [(0, SecsS01F00), (1, SecsS01F01), (2, SecsS01F02), (3, SecsS01F03),
         (4, SecsS01F04), (11, SecsS01F11), (12, SecsS01F12), (13, SecsS01F13),
         (14, SecsS01F14), (15, SecsS01F15), (16, SecsS01F16), (17, SecsS01F17),
         (18, SecsS01F18)]),
    (2, [(0, SecsS02F00), (13, SecsS02F13), (14, SecsS02F14), (15, SecsS02F15),
         (16, SecsS02F16), (17, SecsS02F17), (18, SecsS02F18), (29, SecsS02F29),
         (30, SecsS02F30), (33, SecsS02F33), (34, SecsS02F34), (35, SecsS02F35),
         (36, SecsS02F36), (37, SecsS02F37), (38, SecsS02F38), (41, SecsS02F41),
         (42, SecsS02F42)]),
    (5, [(0, SecsS05F00), (1, SecsS05F01), (2, SecsS05F02)]),
    (6, [(0, SecsS06F00), (5, SecsS06F05), (6, SecsS06F06), (7, SecsS06F07),
         (8, SecsS06F08), (11, SecsS06F11), (12, SecsS06F12), (15, SecsS06F15),
         (16, SecsS06F16), (19, SecsS06F19), (20, SecsS06F20), (21, SecsS06F21),
         (22, SecsS06F22)]),
    (7, [(1, SecsS07F01), (2, SecsS07F02), (3, SecsS07F03), (4, SecsS07F04),
         (5, SecsS07F05), (6, SecsS07F06), (17, SecsS07F17), (18, SecsS07F18),
         (19, SecsS07F19), (20, SecsS07F20)]),
    (9, [(0, SecsS09F00), (1, SecsS09F01), (3, SecsS09F03), (5, SecsS09F05),
         (7, SecsS09F07), (9, SecsS09F09), (11, SecsS09F11), (13, SecsS09F13)]),
    (10, [(0, SecsS10F00), (1, SecsS10F01), (2, SecsS10F02), (3, SecsS10F03),
          (4, SecsS10F04)]),
    (12, [(0, SecsS12F00), (1, SecsS12F01), (2, SecsS12F02), (3, SecsS12F03),
          (4, SecsS12F04), (5, SecsS12F05), (6, SecsS12F06), (7, SecsS12F07),
          (8, SecsS12F08), (9, SecsS12F09), (10, SecsS12F10), (11, SecsS12F11),
          (12, SecsS12F12), (13, SecsS12F13), (14, SecsS12F14), (15, SecsS12F15),
          (16, SecsS12F16), (17, SecsS12F17), (18, SecsS12F18), (19, SecsS12F19)]),
    (14, [(0, SecsS14F00), (1, SecsS14F01), (2, SecsS14F02), (3, SecsS14F03),
          (4, SecsS14F04)]) ]

/-- All `(stream, function, messageType)` triples registered in the catalog,
flattened in table order. -/
def registeredEntries : List (Nat × Nat × MessageType) :=
  (secsStreamsFunctions.map
    (fun p => p.2.map (fun q => (p.1, q.1, q.2)))).flatten

/-- All registered message types, in table order. -/
def registeredMessages : List MessageType :=
  registeredEntries.map (fun e => e.2.2)

/-- Modelled from the spec: `Catalog.lookup(stream, function)` (§4.5) is not
part of `functions.py` (only the table `secsStreamsFunctions` is); the spec
says it "returns the MessageType or an explicit unknown marker — it never
raises for an unregistered pair".  Embedded as an `Option`-valued association
lookup over the table, `none` being the "unknown" marker. -/
def lookup (stream function : Nat) : Option MessageType :=
  match secsStreamsFunctions.find? (fun p => p.1 = stream) with
  | none => none
  | some (_, fns) =>
    match fns.find? (fun q => q.1 = function) with
    | none => none
    | some (_, m) => some m

mutual

/-- Every `list` node of the schema declares a field count equal to the
number of `(fieldName, schema)` pairs it holds, at every nesting depth. -/
def arityConsistent : Schema → Bool
  | .list fields n => (n == fields.length) && arityConsistentFields fields
  | .array e => arityConsistent e
  | _ => true

/-- `arityConsistent` over the named fields of a `list` node, in order. -/
def arityConsistentFields : List (String × Schema) → Bool
  | [] => true
  | f :: rest => arityConsistent f.2 && arityConsistentFields rest

end

/-- `arityConsistent` lifted to an optional format descriptor. -/
def fdArityConsistent : Option Schema → Bool
  | none => true
  | some s => arityConsistent s

mutual

/-- The schema contains a component of unbounded maximum encoded length:
a variable-arity `SecsVarArray`, a scalar declared without a length
constraint, or a `SecsVarDynamic` union (which may resolve to an
unconstrained scalar).  Opaque `dataitems` leaves are conservatively
counted as bounded, since their definition is outside `functions.py`. -/
def hasUnbounded : Schema → Bool
  | .list fields _ => hasUnboundedFields fields
  | .array _ => true
  | .string len => len.isNone
  | .binary len => len.isNone
  | .u1 len => len.isNone
  | .u2 len => len.isNone
  | .u4 len => len.isNone
  | .i2 len => len.isNone
  | .i4 len => len.isNone
  | .dynamic _ => true
  | .item _ => false

/-- `hasUnbounded` over the named fields of a `list` node. -/
def hasUnboundedFields : List (String × Schema) → Bool
  | [] => false
  | f :: rest => hasUnbounded f.2 || hasUnboundedFields rest

end

/-- `hasUnbounded` lifted to an optional format descriptor: a header-only
message (`_formatDescriptor = None`) has no unbounded component. -/
def fdHasUnbounded : Option Schema → Bool
  | none => false
  | some s => hasUnbounded s

/-- The function-0 ("abort transaction") entry of stream `s` exists and has
the shape claimed for it: no format descriptor, both direction flags set,
no reply, reply not required, and not multi-block. -/
def fn0Ok (s : Nat) : Bool :=
  match lookup s 0 with
  | none => false
  | some m =>
    m.formatDescriptor.isNone && m.toHost && m.toEquipment &&
      !m.hasReply && !m.isReplyRequired && !m.isMultiBlock

/-! ## Wire codec

Modelled from the spec: the data-item codec lives in `dataitems.py`, which is
not part of the source tree.  The model follows §4.1/§6 of the spec: one
header byte whose upper six bits are the format code and whose lower two bits
give the count of following length bytes (1–3), big-endian length bytes
counting elements (containers) or payload bytes (scalars), then the payload.
The format-code table is the fixed table of the published standard. -/

/-- Modelled from the spec: the fixed enumeration of item format codes
(§3 DataItem, §6 wire format). -/
inductive ItemFormat where
  | list
  | binary
  | boolean
  | ascii
  | i8
  | i1
  | i2
  | i4
  | f8
  | f4
  | u8
  | u1
  | u2
  | u4
deriving DecidableEq

/-- Modelled from the spec: the six-bit format code of each item format,
"a fixed external contract defined by the published standard" (§6). -/
def formatCode : ItemFormat → Nat
  | .list => 0
  | .binary => 8
  | .boolean => 9
  | .ascii => 16
  | .i8 => 24
  | .i1 => 25
  | .i2 => 26
  | .i4 => 28
  | .f8 => 32
  | .f4 => 36
  | .u8 => 40
  | .u1 => 41
  | .u2 => 42
  | .u4 => 44

/-- Inverse of `formatCode`: recognize a six-bit wire format code.  An
unrecognized code is a `FormatError`, embedded as `none`. -/
def recognizeFormat : Nat → Option ItemFormat
  | 0 => some .list
  | 8 => some .binary
  | 9 => some .boolean
  | 16 => some .ascii
  | 24 => some .i8
  | 25 => some .i1
  | 26 => some .i2
  | 28 => some .i4
  | 32 => some .f8
  | 36 => some .f4
  | 40 => some .u8
  | 41 => some .u1
  | 42 => some .u2
  | 44 => some .u4
  | _ => none

/-- Element width in bytes of each fixed-width format (§4.1); byte-granular
formats (ASCII, binary, boolean) have width 1. -/
def elementWidth : ItemFormat → Nat
  | .list => 1
  | .binary => 1
  | .boolean => 1
  | .ascii => 1
  | .i8 => 8
  | .i1 => 1
  | .i2 => 2
  | .i4 => 4
  | .f8 => 8
  | .f4 => 4
  | .u8 => 8
  | .u1 => 1
  | .u2 => 2
  | .u4 => 4

/-- An instance tree (a decoded data-item value): either a container holding
an ordered sequence of children, or a scalar of some non-list format holding
its payload bytes.  On the wire both `List` and `Array` containers are the
single container format, so this is the codomain of decoding. -/
inductive Item where
  | scalar (fmt : ItemFormat) (payload : List Nat)
  | list (children : List Item)

/-- Minimal big-endian length-byte encoding of a count `n < 2^24`
(1, 2 or 3 length bytes, as produced by a conformant encoder). -/
def lengthBytes (n : Nat) : List Nat :=
  if n < 256 then [n]
  else if n < 65536 then [n / 256, n % 256]
  else [n / 65536, n / 256 % 256, n % 256]

/-- Read `k` big-endian length bytes, accumulating into `acc`; `none` on a
truncated buffer. -/
def readLen : Nat → Nat → List Nat → Option (Nat × List Nat)
  | 0, acc, rest => some (acc, rest)
  | _ + 1, _, [] => none
  | k + 1, acc, b :: rest => readLen k (acc * 256 + b) rest

mutual

/-- Recursive serializer: header byte, minimal length bytes, payload.  The
container length prefix counts elements, a scalar length prefix counts
payload bytes (§4.1, §4.2). -/
def encodeItem : Item → List Nat
  | .scalar fmt payload =>
    (formatCode fmt * 4 + (lengthBytes payload.length).length) ::
      (lengthBytes payload.length ++ payload)
  | .list children =>
    (formatCode .list * 4 + (lengthBytes children.length).length) ::
      (lengthBytes children.length ++ encodeItems children)

/-- Concatenation of the encodings of a sequence of children, in order. -/
def encodeItems : List Item → List Nat
  | [] => []
  | c :: cs => encodeItem c ++ encodeItems cs

end

mutual

/-- Fuel-indexed decoder for one item: reads the header byte, the declared
count of length bytes, then either that many child items (container) or that
many payload bytes (scalar).  Rejects, with `none`: a truncated buffer, a
zero length-byte count, an unrecognized format code, and a scalar payload
length that is not a multiple of the element width (§4.1 FormatError). -/
def decodeItem : Nat → List Nat → Option (Item × List Nat)
  | 0, _ => none
  | _ + 1, [] => none
  | fuel + 1, b :: rest =>
    if b % 4 = 0 then none
    else
      match readLen (b % 4) 0 rest with
      | none => none
      | some (len, rest2) =>
        if b / 4 = 0 then
          match decodeItems fuel len rest2 with
          | none => none
          | some (cs, rest3) => some (.list cs, rest3)
        else
          match recognizeFormat (b / 4) with
          | none => none
          | some fmt =>
            if len % elementWidth fmt = 0 ∧ len ≤ rest2.length then
              some (.scalar fmt (rest2.take len), rest2.drop len)
            else none

/-- Fuel-indexed decoder for exactly `n` consecutive child items. -/
def decodeItems : Nat → Nat → List Nat → Option (List Item × List Nat)
  | _, 0, rest => some ([], rest)
  | 0, _ + 1, _ => none
  | fuel + 1, n + 1, rest =>
    match decodeItem fuel rest with
    | none => none
    | some (c, rest2) =>
      match decodeItems fuel n rest2 with
      | none => none
      | some (cs, rest3) => some (c :: cs, rest3)

end

mutual

/-- Well-formed instance tree: scalars are non-list with a payload of legal
bytes whose length is representable in three length bytes and a multiple of
the element width; containers have a representable element count.  These are
exactly the trees a conformant `build` can produce (§4.1, §4.2). -/
def wfItem : Item → Bool
  | .scalar fmt payload =>
    decide (fmt ≠ ItemFormat.list) &&
    decide (payload.length < 16777216) &&
    decide (payload.length % elementWidth fmt = 0) &&
    payload.all (fun b => decide (b < 256))
  | .list children =>
    decide (children.length < 16777216) && wfItems children

/-- `wfItem` over a sequence of children. -/
def wfItems : List Item → Bool
  | [] => true
  | c :: cs => wfItem c && wfItems cs

end

mutual

/-- Decoder fuel needed for one item. -/
def sizeItem : Item → Nat
  | .scalar _ _ => 1
  | .list children => 1 + sizeItems children

/-- Decoder fuel needed for a sequence of children. -/
def sizeItems : List Item → Nat
  | [] => 0
  | c :: cs => 1 + max (sizeItem c) (sizeItems cs)

end

/-- Whole-message decode: run the item decoder with fuel bounded by the
buffer length and require the buffer to be consumed exactly. -/
def decode (bs : List Nat) : Option Item :=
  match decodeItem bs.length bs with
  | some (v, []) => some v
  | _ => none

theorem readLen_lengthBytes (n : Nat) (rest : List Nat) :
    readLen (lengthBytes n).length 0 (lengthBytes n ++ rest) = some (n, rest) := by
  unfold lengthBytes
  by_cases h1 : n < 256
  · simp [h1, readLen]
  · by_cases h2 : n < 65536
    · simp [h1, h2, readLen]
      omega
    · simp [h1, h2, readLen]
      omega

theorem lengthBytes_length_lt (n : Nat) : (lengthBytes n).length < 4 := by
  unfold lengthBytes
  by_cases h1 : n < 256 <;> by_cases h2 : n < 65536 <;> simp [h1, h2]

theorem lengthBytes_length_pos (n : Nat) : 0 < (lengthBytes n).length := by
  unfold lengthBytes
  by_cases h1 : n < 256 <;> by_cases h2 : n < 65536 <;> simp [h1, h2]

theorem header_mod (a L : Nat) (hL : L < 4) : (a * 4 + L) % 4 = L := by omega

theorem header_div (a L : Nat) (hL : L < 4) : (a * 4 + L) / 4 = a := by omega

theorem formatCode_ne_zero (fmt : ItemFormat) (h : fmt ≠ ItemFormat.list) :
    formatCode fmt ≠ 0 := by
  cases fmt <;> first | exact absurd rfl h | decide

theorem recognizeFormat_formatCode (fmt : ItemFormat) :
    recognizeFormat (formatCode fmt) = some fmt := by
  cases fmt <;> rfl

theorem decode_encode_go (fuel : Nat) :
    (∀ v rest, wfItem v = true → sizeItem v ≤ fuel →
      decodeItem fuel (encodeItem v ++ rest) = some (v, rest)) ∧
    (∀ cs rest, wfItems cs = true → sizeItems cs ≤ fuel →
      decodeItems fuel cs.length (encodeItems cs ++ rest) = some (cs, rest)) := by
  induction fuel with
  | zero =>
    constructor
    · intro v rest _ hsize
      cases v <;> simp [sizeItem] at hsize
    · intro cs rest _ hsize
      cases cs with
      | nil => simp [encodeItems, decodeItems]
      | cons c cs => simp [sizeItems] at hsize
  | succ fuel ih =>
    constructor
    · intro v rest hwf hsize
      cases v with
      | scalar fmt payload =>
        simp only [wfItem, Bool.and_eq_true, decide_eq_true_eq,
          List.all_eq_true] at hwf
        obtain ⟨⟨⟨hfmt, hlen⟩, hmod⟩, hbytes⟩ := hwf
        have hL1 := lengthBytes_length_pos payload.length
        have hL4 := lengthBytes_length_lt payload.length
        simp only [encodeItem, List.cons_append, List.append_assoc]
        simp only [decodeItem]
        rw [header_mod _ _ hL4, header_div _ _ hL4]
        rw [if_neg (by omega), readLen_lengthBytes]
        simp only []
        rw [if_neg (formatCode_ne_zero fmt hfmt)]
        rw [recognizeFormat_formatCode]
        simp only []
        rw [if_pos ⟨hmod, by simp⟩]
        simp [List.take_left, List.drop_left]
      | list cs =>
        simp only [wfItem, Bool.and_eq_true, decide_eq_true_eq] at hwf
        obtain ⟨hlen, hwfcs⟩ := hwf
        have hsz : sizeItems cs ≤ fuel := by
          simp only [sizeItem] at hsize; omega
        have hL1 := lengthBytes_length_pos cs.length
        have hL4 := lengthBytes_length_lt cs.length
        simp only [encodeItem, formatCode, List.cons_append, List.append_assoc,
          Nat.zero_mul, Nat.zero_add]
        simp only [decodeItem]
        rw [Nat.mod_eq_of_lt hL4, Nat.div_eq_of_lt hL4]
        rw [if_neg (by omega), readLen_lengthBytes]
        simp only []
        rw [if_pos trivial]
        rw [(ih.2) cs rest hwfcs hsz]
    · intro cs rest hwf hsize
      cases cs with
      | nil => simp [encodeItems, decodeItems]
      | cons c cs =>
        simp only [wfItems, Bool.and_eq_true] at hwf
        obtain ⟨hwfc, hwfcs⟩ := hwf
        simp only [sizeItems] at hsize
        have h1 : sizeItem c ≤ fuel := by omega
        have h2 : sizeItems cs ≤ fuel := by omega
        simp only [encodeItems, List.append_assoc, List.length_cons]
        simp only [decodeItems]
        rw [(ih.1) c _ hwfc h1]
        simp only []
        rw [(ih.2) cs rest hwfcs h2]

mutual

theorem sizeItem_lt_encode : ∀ v : Item, sizeItem v + 1 ≤ (encodeItem v).length
  | .scalar fmt payload => by
    have := lengthBytes_length_pos payload.length
    simp [sizeItem, encodeItem]
    omega
  | .list cs => by
    have h := sizeItems_le_encode cs
    have := lengthBytes_length_pos cs.length
    simp [sizeItem, encodeItem]
    omega

theorem sizeItems_le_encode : ∀ cs : List Item, sizeItems cs ≤ (encodeItems cs).length
  | [] => by simp [sizeItems, encodeItems]
  | c :: cs => by
    have h1 := sizeItem_lt_encode c
    have h2 := sizeItems_le_encode cs
    simp [sizeItems, encodeItems]
    omega

end

theorem decode_encodeItem (v : Item) (h : wfItem v = true) :
    decode (encodeItem v) = some v := by
  have hb : sizeItem v ≤ (encodeItem v).length := by
    have := sizeItem_lt_encode v
    omega
  have h1 := (decode_encode_go (encodeItem v).length).1 v [] h hb
  rw [List.append_nil] at h1
  unfold decode
  rw [h1]

/-! ## Claims -/

/-- C1: looking up (stream 1, function 1) in the catalog yields the
"are you online" message type `SecsS01F01`, whose `hasReply` and
`isReplyRequired` flags are both true, and looking up the unregistered pair
(stream 99, function 99) yields the distinct "unknown" result `none` rather
than an error. -/
theorem lookup_are_you_online_and_unknown :
    lookup 1 1 = some SecsS01F01 ∧
      SecsS01F01.hasReply = true ∧ SecsS01F01.isReplyRequired = true ∧
      lookup 99 99 = none :=
  ⟨rfl, rfl, rfl, rfl⟩

/-- C2: for every `(stream, function)` key pair registered in
`secsStreamsFunctions`, the message type stored at that position declares
exactly that identity: its `_stream` attribute equals the outer key and its
`_function` attribute equals the inner key. -/
theorem catalog_identity_consistent :
    ∀ e ∈ registeredEntries, e.2.2.stream = e.1 ∧ e.2.2.function = e.2.1 := by
  decide

/-- Witness for C2 at the catalog entry (1, 1, `SecsS01F01`). -/
theorem catalog_identity_consistent_witness :
    (registeredEntries.get ⟨2, by decide⟩).2.2.stream =
        (registeredEntries.get ⟨2, by decide⟩).1 ∧
      (registeredEntries.get ⟨2, by decide⟩).2.2.function =
        (registeredEntries.get ⟨2, by decide⟩).2.1 :=
  catalog_identity_consistent _ (List.get_mem _ _ _)

/-- C5: no registered message type has `_isReplyRequired` set without
`_hasReply` also set. -/
theorem replyRequired_implies_hasReply :
    ∀ m ∈ registeredMessages, m.isReplyRequired = true → m.hasReply = true := by
  decide

/-- Witness for C5 at `SecsS01F01`, whose `_isReplyRequired` is true. -/
theorem replyRequired_implies_hasReply_witness :
    (registeredMessages.get ⟨2, by decide⟩).hasReply = true :=
  replyRequired_implies_hasReply _ (List.get_mem _ _ _) (by decide)

/-- C6: every registered message type has at least one direction flag set:
`_toEquipment` (direction from host) or `_toHost` (direction from
equipment). -/
theorem direction_flag_present :
    ∀ m ∈ registeredMessages, m.toHost = true ∨ m.toEquipment = true := by
  decide

/-- Witness for C6 at the catalog entry for `SecsS00F00`. -/
theorem direction_flag_present_witness :
    (registeredMessages.get ⟨0, by decide⟩).toHost = true ∨
      (registeredMessages.get ⟨0, by decide⟩).toEquipment = true :=
  direction_flag_present _ (List.get_mem _ _ _)

/-- C7: every `SecsVarList` node occurring in any format descriptor in the
catalog, at any nesting depth, declares a fixed arity equal to the number of
named `(fieldName, schemaNode)` pairs it is given (the field pairs being kept
in schema order by the embedding's ordered field list). -/
theorem list_arity_consistent :
    ∀ m ∈ registeredMessages, fdArityConsistent m.formatDescriptor = true := by
  decide

/-- Witness for C7 at `SecsS12F01`, whose descriptor declares a 15-field
list. -/
theorem list_arity_consistent_witness :
    fdArityConsistent (registeredMessages.get ⟨71, by decide⟩).formatDescriptor
      = true :=
  list_arity_consistent _ (List.get_mem _ _ _)

/-- C8: every registered entry has a stream number at most 127 and a
function number at most 255 (the lower bound 0 is inherent in the `Nat`
embedding), both as the catalog key pair and as the declared `_stream` and
`_function` attributes. -/
theorem stream_function_in_range :
    ∀ e ∈ registeredEntries,
      e.1 ≤ 127 ∧ e.2.1 ≤ 255 ∧ e.2.2.stream ≤ 127 ∧ e.2.2.function ≤ 255 := by
  decide

/-- Witness for C8 at the catalog entry (1, 1, `SecsS01F01`). -/
theorem stream_function_in_range_witness :
    (registeredEntries.get ⟨2, by decide⟩).1 ≤ 127 ∧
      (registeredEntries.get ⟨2, by decide⟩).2.1 ≤ 255 ∧
      (registeredEntries.get ⟨2, by decide⟩).2.2.stream ≤ 127 ∧
      (registeredEntries.get ⟨2, by decide⟩).2.2.function ≤ 255 :=
  stream_function_in_range _ (List.get_mem _ _ _)

/-- C9: every stream among 0, 1, 2, 5, 6, 9, 10, 12, 14 has a function-0
("abort transaction") entry with no format descriptor, both direction flags
true, no reply, reply not required and not multi-block (`fn0Ok`); the
registered streams are exactly 0, 1, 2, 5, 6, 7, 9, 10, 12, 14; and stream 7
is the one registered stream without a function-0 entry. -/
theorem function_zero_entries :
    (∀ s ∈ [0, 1, 2, 5, 6, 9, 10, 12, 14], fn0Ok s = true) ∧
      secsStreamsFunctions.map (fun p => p.1) = [0, 1, 2, 5, 6, 7, 9, 10, 12, 14] ∧
      (∀ p ∈ secsStreamsFunctions, (lookup p.1 0).isNone = true ↔ p.1 = 7) := by
  refine ⟨by decide, rfl, by decide⟩

/-- Witness for C9 at stream 1. -/
theorem function_zero_entries_witness : fn0Ok 1 = true :=
  function_zero_entries.1 1 (by decide)

/-- C10: every registered message type with an even function number has
`_hasReply` false and `_isReplyRequired` false. -/
theorem even_function_no_reply :
    ∀ m ∈ registeredMessages,
      m.function % 2 = 0 → m.hasReply = false ∧ m.isReplyRequired = false := by
  decide

/-- Witness for C10 at `SecsS01F02` (function 2). -/
theorem even_function_no_reply_witness :
    (registeredMessages.get ⟨3, by decide⟩).hasReply = false ∧
      (registeredMessages.get ⟨3, by decide⟩).isReplyRequired = false :=
  even_function_no_reply _ (List.get_mem _ _ _) (by decide)

/-- C3 as stated is false on the code: `SecsS01F03` is registered, its
descriptor `SecsVarArray(SVID())` contains a variable-arity array (unbounded
maximum encoded length), yet `_isMultiBlock` is false. -/
theorem unbounded_without_multiBlock :
    ¬ (∀ m ∈ registeredMessages,
        fdHasUnbounded m.formatDescriptor = true → m.isMultiBlock = true) := by
  decide

/-- C3 amended: the implication holds in the converse direction — every
registered message type with `_isMultiBlock` true has a format descriptor
containing a variable-arity `SecsVarArray` or another component of unbounded
maximum encoded length. -/
theorem multiBlock_has_unbounded :
    ∀ m ∈ registeredMessages,
      m.isMultiBlock = true → fdHasUnbounded m.formatDescriptor = true := by
  decide

/-- Witness for the amended C3 at `SecsS01F04` (multi-block, array
descriptor). -/
theorem multiBlock_has_unbounded_witness :
    fdHasUnbounded (registeredMessages.get ⟨5, by decide⟩).formatDescriptor
      = true :=
  multiBlock_has_unbounded _ (List.get_mem _ _ _) (by decide)

/-- C4: decoding the encoding of any well-formed instance tree (any value a
conformant `build` can produce, for any registered message type) yields a
structurally equal tree, and any byte string produced by a conformant encoder
decodes to a value that re-encodes to exactly those bytes. -/
theorem build_encode_decode_roundtrip :
    (∀ v : Item, wfItem v = true → decode (encodeItem v) = some v) ∧
      (∀ bs : List Nat, (∃ v, wfItem v = true ∧ encodeItem v = bs) →
        ∃ v, decode bs = some v ∧ encodeItem v = bs) := by
  constructor
  · exact decode_encodeItem
  · rintro bs ⟨v, hwf, rfl⟩
    exact ⟨v, decode_encodeItem v hwf, rfl⟩

/-- Witness for C4 at the one-element unsigned scalar `<U1 5>`. -/
theorem build_encode_decode_roundtrip_witness :
    wfItem (Item.scalar ItemFormat.u1 [5]) = true ∧
      decode (encodeItem (Item.scalar ItemFormat.u1 [5])) =
        some (Item.scalar ItemFormat.u1 [5]) :=
  ⟨by decide, build_encode_decode_roundtrip.1 _ (by decide)⟩

end Secsgem
